import Mathlib

/-!
Verification of the AngelBot repository's alert/notification logic.

The development shallowly embeds the relevant fragments of the Python
sources:

* `Notifiche` — notifiche.py (`monitor_loop`, `get_price`,
  `telegram_send_message`, `build_small_chart`, `LOOP_SLEEP`);
* `App` — app.py (`notify_loop`, `telegram_call`, the `/watch`,
  `/unwatch` webhook branches and the `mode` dispatch);
* `SrvA` — Server.py (`get_price_sync`, `alert_worker`);
* `SrvB` — server.py (`truncate_text`, `TELEGRAM_MAX_MESSAGE`).

Prices, thresholds and percentage changes are modelled as rationals;
wall-clock instants as integer epoch seconds (the code stores
`int(now.timestamp())`).  Fallible external calls (HTTP, yfinance,
matplotlib) are modelled by passing the outcome of the external call as
an `Except`/`Option` argument to the embedded wrapper.
-/

namespace AngelBot

/-- Python truthiness of an optional float: `None` and `0.0` are falsy
(`if not baseline:` in notifiche.py line 183). -/
def pyFalsyQ : Option ℚ → Bool
  | none => true
  | some x => x == 0

/-- Python `a or b` for an optional float `a` with fallback `b`
(`prev or price` in app.py line 364). -/
def pyOrQ : Option ℚ → ℚ → ℚ
  | none, b => b
  | some x, b => if x == 0 then b else x

/-- Python `a or b` for two optional floats
(`info.get("currentPrice") or info.get("regularMarketPrice")`,
Server.py line 120). -/
def pyOrOptQ : Option ℚ → Option ℚ → Option ℚ
  | none, b => b
  | some x, b => if x == 0 then b else some x

/-- Python `a or b` for an optional string `a` (`None` and `""` falsy)
with fallback `b` (`if not reply:` in app.py lines 708-709). -/
def pyOrStr : Option String → String → String
  | none, b => b
  | some s, b => if s = "" then b else s

/-- An HTTP response as far as the wrappers inspect it. -/
structure HttpResp where
  ok : Bool
deriving DecidableEq

namespace Notifiche

/-- notifiche.py line 25: `LOOP_SLEEP = 20` — seconds slept between two
passes of `monitor_loop` (line 295: `time.sleep(LOOP_SLEEP)`). -/
def LOOP_SLEEP : ℤ := 20

/-- One per-user, per-ticker notification config, as read by
`monitor_loop` (notifiche.py lines 168-178) with the dictionary
defaults already resolved:
`pct = float(cfg.get("pct", 5.0))`,
`interval_min = int(cfg.get("interval_min", ...))`,
`both = bool(cfg.get("both", True))`,
`direction = cfg.get("direction", "both")`,
`last_notif_ts = cfg.get("last_notif_ts", 0)` (0 = never notified),
`baseline_price = cfg.get("baseline_price")` (`none` = missing). -/
structure Entry where
  pct : ℚ
  interval_min : ℤ
  both : Bool
  direction : String
  last_notif_ts : ℤ
  baseline_price : Option ℚ
deriving DecidableEq

/-- The debounce window of `monitor_loop` in seconds: line 175 compares
`now - last_dt < timedelta(minutes=interval)`. -/
def debounceWindowSecs (e : Entry) : ℤ := e.interval_min * 60

/-- Result of processing one ticker on one tick: the updated config and
whether a notification was sent. -/
structure TickResult where
  entry : Entry
  fired : Bool
deriving DecidableEq

/-- Body of `monitor_loop` for a single `(ticker, cfg)` pair on one tick
(notifiche.py lines 168-216).  `now` is the tick's epoch time and
`price?` the result of `get_price(ticker)` (already `None`-checked by
the caller pattern at lines 179-181). -/
def monitorStep (now : ℤ) (price? : Option ℚ) (e : Entry) : TickResult :=
  if e.last_notif_ts ≠ 0 ∧ now - e.last_notif_ts < debounceWindowSecs e then
    ⟨e, false⟩
  else
    match price? with
    | none => ⟨e, false⟩
    | some price =>
      if pyFalsyQ e.baseline_price then
        ⟨{ e with baseline_price := some price }, false⟩
      else
        let b := e.baseline_price.getD 0
        let change := (price - b) / b * 100
        let triggered :=
          if e.both then decide (e.pct ≤ |change|)
          else if e.direction = "up" then decide (e.pct ≤ change)
          else if e.direction = "down" then decide (change ≤ -e.pct)
          else decide (e.pct ≤ |change|)
        if triggered then
          ⟨{ e with last_notif_ts := now, baseline_price := some price }, true⟩
        else
          ⟨e, false⟩

/-- One pass of `monitor_loop` over a user's notifications dictionary
(the `for ticker, cfg in list(notifications.items())` loop), with
`fetch` giving `get_price`'s result per ticker. -/
def processBatch (now : ℤ) (fetch : String → Option ℚ) :
    List (String × Entry) → List (String × TickResult)
  | [] => []
  | (tk, e) :: rest => (tk, monitorStep now (fetch tk) e) :: processBatch now fetch rest

/-- A sequence of poll ticks for one `(chat, ticker)` pair: each tick is
`(epoch time, fetched price)`.  Returns the final config and the times
at which notifications were sent, in order. -/
def runTicks : Entry → List (ℤ × Option ℚ) → Entry × List ℤ
  | e, [] => (e, [])
  | e, (t, p) :: rest =>
    let r := monitorStep t p e
    let tail := runTicks r.entry rest
    (tail.1, if r.fired then t :: tail.2 else tail.2)

/-- `get_price` (notifiche.py lines 83-92): the whole yfinance call is
wrapped in `try/except`; an exception or an empty frame yields `None`,
otherwise the last close is returned. -/
def get_price (hist : Except Unit (Option ℚ)) : Except Unit (Option ℚ) :=
  match hist with
  | Except.error _ => Except.ok none
  | Except.ok none => Except.ok none
  | Except.ok (some close) => Except.ok (some close)

/-- `telegram_send_message` (notifiche.py lines 58-69): the POST is
wrapped in `try/except`; an exception yields `None`, otherwise the
response object is returned (a non-ok response is only logged). -/
def telegram_send_message (resp : Except Unit HttpResp) : Except Unit (Option HttpResp) :=
  match resp with
  | Except.error _ => Except.ok none
  | Except.ok r => Except.ok (some r)

/-- `build_small_chart` (notifiche.py lines 94-119): chart rendering is
wrapped in `try/except`; an exception yields `None`, otherwise the
image buffer. -/
def build_small_chart (render : Except Unit String) : Except Unit (Option String) :=
  match render with
  | Except.error _ => Except.ok none
  | Except.ok buf => Except.ok (some buf)

end Notifiche

namespace App

/-- app.py line 36: `CHECK_INTERVAL_MIN = int(os.getenv("CHECK_INTERVAL_MIN", "60"))`. -/
def CHECK_INTERVAL_MIN : ℤ := 60

/-- app.py line 37: `NOTIF_PCT_DEFAULT = float(os.getenv("NOTIF_PCT_DEFAULT", "2.0"))`. -/
def NOTIF_PCT_DEFAULT : ℚ := 2

/-- Debounce window of `notify_loop` in seconds: line 377 compares
`now - last_dt < timedelta(minutes=CHECK_INTERVAL_MIN)`. -/
def debounceWindowSecs : ℤ := CHECK_INTERVAL_MIN * 60

/-- Seconds slept between two passes of `notify_loop`: line 419 is
`time.sleep(CHECK_INTERVAL_MIN * 60)`. -/
def loopSleepSecs : ℤ := CHECK_INTERVAL_MIN * 60

/-- Per-symbol notification config of app.py/bot.py.  `baseline` is the
raw dictionary slot: `none` = key absent, `some none` = stored `None`
(as written by `/watch`), `some (some b)` = stored price. -/
structure Cfg where
  pct : ℚ
  baseline : Option (Option ℚ)
  last_notif_ts : ℤ
deriving DecidableEq

/-- Result of `notify_loop`'s body for one favorite symbol: updated
config, whether a notification was sent, and the updated
`last_prices[key]` slot. -/
structure StepResult where
  cfg : Cfg
  fired : Bool
  lastPrice : Option ℚ
deriving DecidableEq

/-- Body of `notify_loop` for one `(chat, sym)` favorite on one tick
(app.py lines 355-397; bot.py lines 325-366 are identical).  `now` is
the tick's epoch time, `price?` the result of `get_last_price(sym)`,
and `prev` the in-memory `last_prices.get(key)`. -/
def notifyStep (now : ℤ) (price? : Option ℚ) (prev : Option ℚ) (cfg : Cfg) : StepResult :=
  match price? with
  | none => ⟨cfg, false, prev⟩
  | some price =>
    let baseline : Option ℚ :=
      match cfg.baseline with
      | none => some (pyOrQ prev price)
      | some b => b
    match baseline with
    | none => ⟨{ cfg with baseline := some (some price) }, false, prev⟩
    | some b =>
      let change := (price - b) / b * 100
      let send_flag :=
        decide (cfg.pct ≤ |change|) &&
          (cfg.last_notif_ts == 0 || decide (debounceWindowSecs ≤ now - cfg.last_notif_ts))
      if send_flag then
        ⟨{ cfg with last_notif_ts := now, baseline := some (some price) }, true, some price⟩
      else
        ⟨cfg, false, some price⟩

/-- A sequence of poll ticks of `notify_loop` for one `(chat, sym)`
favorite, threading the `last_prices` slot.  Returns the final config,
the final `last_prices` slot, and the notification times in order. -/
def runTicks : Cfg → Option ℚ → List (ℤ × Option ℚ) → Cfg × Option ℚ × List ℤ
  | cfg, prev, [] => (cfg, prev, [])
  | cfg, prev, (t, p) :: rest =>
    let r := notifyStep t p prev cfg
    let tail := runTicks r.cfg r.lastPrice rest
    (tail.1, tail.2.1, if r.fired then t :: tail.2.2 else tail.2.2)

/-- `telegram_call` (app.py lines 61-73): the POST is wrapped in
`try/except`; an exception yields `None`, otherwise the response
(a non-ok response is only logged). -/
def telegram_call (resp : Except Unit HttpResp) : Except Unit (Option HttpResp) :=
  match resp with
  | Except.error _ => Except.ok none
  | Except.ok r => Except.ok (some r)

/-- The mode flag values stored by the webhook handler. -/
inductive Mode
  | search
  | chat
  | analysis_prompt
deriving DecidableEq

/-- One chat-context message (`{"role": ..., "content": ...}`). -/
structure ChatMsg where
  role : String
  content : String
deriving DecidableEq

/-- Per-chat persisted state of app.py/bot.py:
`{"favorites": [...], "notifications": {...}, "mode": ..., "context": [...]}`.
The notifications dictionary is kept as an insertion-ordered
association list, matching Python's dict order. -/
structure UserState where
  favorites : List String
  notifications : List (String × Cfg)
  mode : Option Mode
  context : List ChatMsg
deriving DecidableEq

/-- Python's `l[-n:]`. -/
def pyLastN (n : Nat) (l : List ChatMsg) : List ChatMsg := l.drop (l.length - n)

/-- The fallback chat reply of app.py line 709. -/
def chatFallbackReply : String :=
  "Ricevuto. Posso fornirti analisi con /analizza TICKER o ricerca con Cerca."

/-- Dictionary assignment `d[k] = v`: overwrite in place if the key
exists, else append (Python dicts preserve insertion order). -/
def assocSet (l : List (String × Cfg)) (k : String) (v : Cfg) : List (String × Cfg) :=
  if l.any (fun p => p.1 == k) then
    l.map (fun p => if p.1 == k then (k, v) else p)
  else
    l ++ [(k, v)]

/-- Dictionary removal `d.pop(k, None)`. -/
def assocPop (l : List (String × Cfg)) (k : String) : List (String × Cfg) :=
  l.eraseP (fun p => p.1 == k)

/-- Dictionary membership `k in d`. -/
def assocHas (l : List (String × Cfg)) (k : String) : Bool :=
  l.any (fun p => p.1 == k)

/-- The config `/watch` stores for a new symbol (app.py line 597):
`{"pct": NOTIF_PCT_DEFAULT, "baseline": None, "last_notif_ts": 0}`. -/
def watchCfgInit : Cfg := { pct := NOTIF_PCT_DEFAULT, baseline := some none, last_notif_ts := 0 }

/-- The `/watch TICKER` webhook branch (app.py lines 589-604; bot.py
lines 524-539): if the symbol is not yet a favorite, append it and
register a fresh notification config; otherwise only a message is sent
and the state is unchanged. -/
def handleWatch (st : UserState) (sym : String) : UserState :=
  if st.favorites.contains sym then st
  else
    { st with
      favorites := st.favorites ++ [sym]
      notifications := assocSet st.notifications sym watchCfgInit }

/-- The `/unwatch TICKER` webhook branch (app.py lines 605-618; bot.py
lines 540-553): if the symbol is a favorite, `list.remove` it and pop
its notification config; otherwise the state is unchanged. -/
def handleUnwatch (st : UserState) (sym : String) : UserState :=
  if st.favorites.contains sym then
    { st with
      favorites := st.favorites.erase sym
      notifications := assocPop st.notifications sym }
  else st

/-- The mode-dispatch tail of the webhook handler (app.py lines
676-727): state effect of handling one plain message while `mode` is
set.  `aiReply` is the outcome of the OpenAI call in chat mode (`none`
for failure; an empty reply is also falsy, line 708). -/
def handleModeMessage (st : UserState) (text : String) (aiReply : Option String) : UserState :=
  match st.mode with
  | some Mode.search => { st with mode := none }
  | some Mode.chat =>
    let ctx := st.context ++ [⟨"user", text⟩]
    let reply := pyOrStr aiReply chatFallbackReply
    let ctx2 := ctx ++ [⟨"assistant", reply⟩]
    { st with context := pyLastN 10 ctx2 }
  | some Mode.analysis_prompt => { st with mode := none }
  | none => st

/-- The value of `mode` after `handleModeMessage`: search and
analysis-prompt modes are one-shot, chat mode persists. -/
def modeAfter : Option Mode → Option Mode
  | some Mode.search => none
  | some Mode.chat => some Mode.chat
  | some Mode.analysis_prompt => none
  | none => none

end App

namespace SrvA

/-- The two fields of `yf.Ticker(symbol).info` read by Server.py. -/
structure YInfo where
  currentPrice : Option ℚ
  regularMarketPrice : Option ℚ
deriving DecidableEq

/-- `get_price_sync` (Server.py lines 117-120).  The body has no
`try/except`: an exception from `t.info` propagates to the caller;
otherwise `info.get("currentPrice") or info.get("regularMarketPrice")`
is returned. -/
def get_price_sync (info : Except Unit YInfo) : Except Unit (Option ℚ) :=
  match info with
  | Except.error e => Except.error e
  | Except.ok d => Except.ok (pyOrOptQ d.currentPrice d.regularMarketPrice)

/-- One row of the `alerts` table (Server.py line 343). -/
structure Alert where
  symbol : String
  threshold : ℚ
  direction : String
  chat_id : String
deriving DecidableEq

/-- Whether one alert row fires at a price (Server.py lines 350-355). -/
def alertEval (price : ℚ) (a : Alert) : Bool :=
  (a.direction == "below" && decide (price ≤ a.threshold)) ||
  (a.direction == "above" && decide (a.threshold ≤ price))

/-- The `for r in rows` loop of `alert_worker` (Server.py lines
345-355).  `fetch` is `get_price`'s outcome per symbol; `Except.error`
models a raised exception.  Returns the evaluations performed, in
order, and whether the pass was aborted: a raised fetch escapes the
`for` loop into the outer `except` (lines 357-359), so the remaining
rows are not evaluated on that pass. -/
def alertBatch (fetch : String → Except Unit (Option ℚ)) :
    List Alert → List (Alert × Bool) × Bool
  | [] => ([], false)
  | a :: rest =>
    match fetch a.symbol with
    | Except.error _ => ([], true)
    | Except.ok none =>
      let tail := alertBatch fetch rest
      ((a, false) :: tail.1, tail.2)
    | Except.ok (some price) =>
      let tail := alertBatch fetch rest
      ((a, alertEval price a) :: tail.1, tail.2)

end SrvA

namespace SrvB

/-- server.py line 42: `TELEGRAM_MAX_MESSAGE = 4096`. -/
def TELEGRAM_MAX_MESSAGE : Nat := 4096

/-- The truncation suffix of `truncate_text` (server.py line 348).
Python strings are modelled as lists of characters. -/
def troncatoNote : List Char := "\n\n[...] (troncato)".data

/-- `truncate_text` (server.py lines 345-349): unchanged when within
the limit, otherwise cut to `limit - len(note)` characters (clamped at
0, as `max(0, ...)`) and suffixed with the truncation note. -/
def truncate_text (text : List Char) (limit : Nat) : List Char :=
  if text.length ≤ limit then text
  else text.take (limit - troncatoNote.length) ++ troncatoNote

end SrvB

/-! ## Helper lemmas -/

namespace Notifiche

theorem monitorStep_none (now : ℤ) (e : Entry) :
    monitorStep now none e = ⟨e, false⟩ := by
  unfold monitorStep
  split
  · rfl
  · rfl

/-- `monitorStep` produces exactly one of three outcomes: skip, set the
baseline, or fire (firing implies the debounce window had elapsed). -/
theorem monitorStep_cases (now : ℤ) (p : Option ℚ) (e : Entry) :
    monitorStep now p e = ⟨e, false⟩ ∨
      (∃ price, p = some price ∧
        monitorStep now p e = ⟨{ e with baseline_price := some price }, false⟩) ∨
      (∃ price, p = some price ∧
        monitorStep now p e =
          ⟨{ e with last_notif_ts := now, baseline_price := some price }, true⟩ ∧
        (e.last_notif_ts = 0 ∨ debounceWindowSecs e ≤ now - e.last_notif_ts)) := by
  unfold monitorStep
  split
  · exact Or.inl rfl
  · rename_i hdeb
    have hd : e.last_notif_ts = 0 ∨ debounceWindowSecs e ≤ now - e.last_notif_ts := by
      by_contra hcon
      push_neg at hcon
      exact hdeb ⟨hcon.1, hcon.2⟩
    cases p with
    | none => exact Or.inl rfl
    | some price =>
      dsimp only
      repeat' split
      all_goals
        first
          | exact Or.inl rfl
          | exact Or.inr (Or.inl ⟨price, rfl, rfl⟩)
          | exact Or.inr (Or.inr ⟨price, rfl, rfl, hd⟩)

theorem monitorStep_interval (now : ℤ) (p : Option ℚ) (e : Entry) :
    (monitorStep now p e).entry.interval_min = e.interval_min := by
  rcases monitorStep_cases now p e with h | ⟨pr, hp, h⟩ | ⟨pr, hp, h, hd⟩ <;> rw [h]

theorem monitorStep_pct (now : ℤ) (p : Option ℚ) (e : Entry) :
    (monitorStep now p e).entry.pct = e.pct := by
  rcases monitorStep_cases now p e with h | ⟨pr, hp, h⟩ | ⟨pr, hp, h, hd⟩ <;> rw [h]

theorem monitorStep_not_fired_last (now : ℤ) (p : Option ℚ) (e : Entry)
    (h : (monitorStep now p e).fired = false) :
    (monitorStep now p e).entry.last_notif_ts = e.last_notif_ts := by
  rcases monitorStep_cases now p e with hc | ⟨pr, hp, hc⟩ | ⟨pr, hp, hc, hd⟩ <;> rw [hc]
  rw [hc] at h
  simp at h

theorem monitorStep_fired (now : ℤ) (p : Option ℚ) (e : Entry)
    (h : (monitorStep now p e).fired = true) :
    (e.last_notif_ts = 0 ∨ debounceWindowSecs e ≤ now - e.last_notif_ts) ∧
      (monitorStep now p e).entry.last_notif_ts = now := by
  rcases monitorStep_cases now p e with hc | ⟨pr, hp, hc⟩ | ⟨pr, hp, hc, hd⟩
  · rw [hc] at h; simp at h
  · rw [hc] at h; simp at h
  · exact ⟨hd, by rw [hc]⟩

theorem monitorStep_fired_baseline (now : ℤ) (p : ℚ) (e : Entry)
    (h : (monitorStep now (some p) e).fired = true) :
    (monitorStep now (some p) e).entry.baseline_price = some p := by
  rcases monitorStep_cases now (some p) e with hc | ⟨pr, hp, hc⟩ | ⟨pr, hp, hc, hd⟩
  · rw [hc] at h; simp at h
  · rw [hc] at h; simp at h
  · obtain rfl : p = pr := by injection hp
    rw [hc]

/-- With a stored positive baseline, direction "both" and the debounce
window already elapsed, a tick fires exactly when the absolute
percentage change reaches the threshold. -/
theorem monitorStep_fired_iff (now : ℤ) (e : Entry) (b p : ℚ)
    (hb : e.baseline_price = some b) (hbpos : 0 < b) (hboth : e.both = true)
    (hdeb : e.last_notif_ts = 0 ∨ debounceWindowSecs e ≤ now - e.last_notif_ts) :
    ((monitorStep now (some p) e).fired = true ↔ e.pct ≤ |(p - b) / b * 100|) := by
  have hnd : ¬(e.last_notif_ts ≠ 0 ∧ now - e.last_notif_ts < debounceWindowSecs e) := by
    rcases hdeb with h | h
    · exact fun hc => hc.1 h
    · exact fun hc => absurd hc.2 (not_lt.mpr h)
  have hbne : b ≠ 0 := ne_of_gt hbpos
  unfold monitorStep
  rw [if_neg hnd]
  dsimp only
  rw [hb]
  simp only [pyFalsyQ, beq_iff_eq, Option.getD_some, hboth, eq_self_iff_true, if_true]
  rw [if_neg hbne]
  split
  · rename_i htr
    simp only [decide_eq_true_eq] at htr
    simpa using htr
  · rename_i htr
    simp only [decide_eq_true_eq] at htr
    simpa using htr

/-- With threshold above zero, a tick at a price equal to the stored
baseline never fires (the percentage change is 0). -/
theorem monitorStep_same_price_not_fired (now : ℤ) (p : ℚ) (e : Entry)
    (hb : e.baseline_price = some p) (hpct : 0 < e.pct) :
    (monitorStep now (some p) e).fired = false := by
  unfold monitorStep
  split
  · rfl
  · dsimp only
    split
    · rfl
    · rw [hb]
      have h0 : (p - p) / p * 100 = (0 : ℚ) := by rw [sub_self, zero_div, zero_mul]
      simp only [Option.getD_some, h0, abs_zero]
      have h1 : ¬e.pct ≤ (0 : ℚ) := hpct.not_le
      have h2 : ¬(0 : ℚ) ≤ -e.pct := by simpa using hpct.not_le
      repeat' split
      all_goals simp_all
      all_goals linarith

/-- After a notification at epoch `last_notif_ts ≠ 0`, every further
notification time produced by a tick sequence keeps a gap of at least
the entry's debounce window to its predecessor. -/
theorem runTicks_chain_from (w : ℤ) (ticks : List (ℤ × Option ℚ)) :
    ∀ e : Entry, e.interval_min * 60 = w → e.last_notif_ts ≠ 0 →
      (∀ tp ∈ ticks, 0 < tp.1) →
      List.Chain (fun a b => w ≤ b - a) e.last_notif_ts (runTicks e ticks).2 := by
  induction ticks with
  | nil =>
    intro e hw hl hpos
    exact List.Chain.nil
  | cons tp rest ih =>
    rintro e hw hl hpos
    obtain ⟨t, p⟩ := tp
    have hpt : 0 < t := hpos (t, p) (List.mem_cons_self _ _)
    have hprest : ∀ q ∈ rest, 0 < q.1 := fun q hq => hpos q (List.mem_cons_of_mem _ hq)
    have hint := monitorStep_interval t p e
    cases hf : (monitorStep t p e).fired with
    | false =>
      have hlast := monitorStep_not_fired_last t p e hf
      have hch := ih (monitorStep t p e).entry (by rw [hint]; exact hw)
        (by rw [hlast]; exact hl) hprest
      rw [hlast] at hch
      simpa [runTicks, hf] using hch
    | true =>
      have hfi := monitorStep_fired t p e hf
      have hch := ih (monitorStep t p e).entry (by rw [hint]; exact hw)
        (by rw [hfi.2]; exact ne_of_gt hpt) hprest
      rw [hfi.2] at hch
      have hgap : w ≤ t - e.last_notif_ts := by
        rcases hfi.1 with h0 | hW
        · exact absurd h0 hl
        · simp only [debounceWindowSecs] at hW
          rw [hw] at hW
          exact hW
      simp only [runTicks, hf, if_true]
      exact List.Chain.cons hgap hch

/-- Any two consecutive notification times produced by a tick sequence
are at least the entry's debounce window apart. -/
theorem runTicks_chain' (ticks : List (ℤ × Option ℚ)) :
    ∀ e : Entry, (∀ tp ∈ ticks, 0 < tp.1) →
      List.Chain' (fun a b => e.interval_min * 60 ≤ b - a) (runTicks e ticks).2 := by
  induction ticks with
  | nil =>
    intro e hpos
    simp [runTicks]
  | cons tp rest ih =>
    rintro e hpos
    obtain ⟨t, p⟩ := tp
    have hpt : 0 < t := hpos (t, p) (List.mem_cons_self _ _)
    have hprest : ∀ q ∈ rest, 0 < q.1 := fun q hq => hpos q (List.mem_cons_of_mem _ hq)
    have hint := monitorStep_interval t p e
    cases hf : (monitorStep t p e).fired with
    | false =>
      have hch := ih (monitorStep t p e).entry hprest
      rw [hint] at hch
      simpa [runTicks, hf] using hch
    | true =>
      have hfi := monitorStep_fired t p e hf
      have hch := runTicks_chain_from (e.interval_min * 60) rest (monitorStep t p e).entry
        (by rw [hint]) (by rw [hfi.2]; exact ne_of_gt hpt) hprest
      rw [hfi.2] at hch
      simp only [runTicks, hf, if_true]
      exact hch

/-- With a nonnegative interval, no two notification times produced by
a tick sequence (consecutive or not) are closer than the entry's
debounce window. -/
theorem runTicks_pairwise (ticks : List (ℤ × Option ℚ)) (e : Entry)
    (hpos : ∀ tp ∈ ticks, 0 < tp.1) (hint : 0 ≤ e.interval_min) :
    List.Pairwise (fun a b => e.interval_min * 60 ≤ b - a) (runTicks e ticks).2 := by
  have hw : (0 : ℤ) ≤ e.interval_min * 60 := by positivity
  haveI : IsTrans ℤ (fun a b => e.interval_min * 60 ≤ b - a) :=
    ⟨fun a b c hab hbc => by
      have h1 : e.interval_min * 60 ≤ b - a := hab
      have h2 : e.interval_min * 60 ≤ c - b := hbc
      show e.interval_min * 60 ≤ c - a
      linarith⟩
  exact List.chain'_iff_pairwise.mp (runTicks_chain' ticks e hpos)

/-- One pass of `monitor_loop` over a notifications dictionary is the
pointwise application of `monitorStep`: the outcome for each ticker
depends only on that ticker's own fetched price. -/
theorem processBatch_map (now : ℤ) (fetch : String → Option ℚ) (l : List (String × Entry)) :
    processBatch now fetch l = l.map (fun q => (q.1, monitorStep now (fetch q.1) q.2)) := by
  induction l with
  | nil => rfl
  | cons q rest ih =>
    obtain ⟨tk, e⟩ := q
    simp [processBatch, ih]

end Notifiche

namespace App

theorem notifyStep_none (now : ℤ) (prev : Option ℚ) (cfg : Cfg) :
    notifyStep now none prev cfg = ⟨cfg, false, prev⟩ := rfl

/-- `notifyStep` produces exactly one of three outcomes: skip (config
unchanged), set the baseline, or fire (firing implies the debounce
window had elapsed). -/
theorem notifyStep_cases (now : ℤ) (p : Option ℚ) (prev : Option ℚ) (cfg : Cfg) :
    (∃ lp, notifyStep now p prev cfg = ⟨cfg, false, lp⟩) ∨
      (∃ price, p = some price ∧
        notifyStep now p prev cfg =
          ⟨{ cfg with baseline := some (some price) }, false, prev⟩) ∨
      (∃ price, p = some price ∧
        notifyStep now p prev cfg =
          ⟨{ cfg with last_notif_ts := now, baseline := some (some price) },
            true, some price⟩ ∧
        (cfg.last_notif_ts = 0 ∨ debounceWindowSecs ≤ now - cfg.last_notif_ts)) := by
  unfold notifyStep
  cases p with
  | none => exact Or.inl ⟨prev, rfl⟩
  | some price =>
    dsimp only
    cases hcb : cfg.baseline with
    | none =>
      dsimp only
      split
      · rename_i hsf
        simp only [Bool.and_eq_true, Bool.or_eq_true, beq_iff_eq, decide_eq_true_eq] at hsf
        exact Or.inr (Or.inr ⟨price, rfl, rfl, hsf.2⟩)
      · exact Or.inl ⟨some price, rfl⟩
    | some b =>
      cases b with
      | none => exact Or.inr (Or.inl ⟨price, rfl, rfl⟩)
      | some bb =>
        dsimp only
        split
        · rename_i hsf
          simp only [Bool.and_eq_true, Bool.or_eq_true, beq_iff_eq, decide_eq_true_eq] at hsf
          exact Or.inr (Or.inr ⟨price, rfl, rfl, hsf.2⟩)
        · exact Or.inl ⟨some price, rfl⟩

theorem notifyStep_pct (now : ℤ) (p : Option ℚ) (prev : Option ℚ) (cfg : Cfg) :
    (notifyStep now p prev cfg).cfg.pct = cfg.pct := by
  rcases notifyStep_cases now p prev cfg with ⟨lp, hc⟩ | ⟨pr, hp, hc⟩ | ⟨pr, hp, hc, hd⟩ <;>
    rw [hc]

theorem notifyStep_not_fired_last (now : ℤ) (p : Option ℚ) (prev : Option ℚ) (cfg : Cfg)
    (h : (notifyStep now p prev cfg).fired = false) :
    (notifyStep now p prev cfg).cfg.last_notif_ts = cfg.last_notif_ts := by
  rcases notifyStep_cases now p prev cfg with ⟨lp, hc⟩ | ⟨pr, hp, hc⟩ | ⟨pr, hp, hc, hd⟩ <;>
    rw [hc]
  rw [hc] at h
  simp at h

theorem notifyStep_fired (now : ℤ) (p : Option ℚ) (prev : Option ℚ) (cfg : Cfg)
    (h : (notifyStep now p prev cfg).fired = true) :
    (cfg.last_notif_ts = 0 ∨ debounceWindowSecs ≤ now - cfg.last_notif_ts) ∧
      (notifyStep now p prev cfg).cfg.last_notif_ts = now := by
  rcases notifyStep_cases now p prev cfg with ⟨lp, hc⟩ | ⟨pr, hp, hc⟩ | ⟨pr, hp, hc, hd⟩
  · rw [hc] at h; simp at h
  · rw [hc] at h; simp at h
  · exact ⟨hd, by rw [hc]⟩

theorem notifyStep_fired_baseline (now : ℤ) (p : ℚ) (prev : Option ℚ) (cfg : Cfg)
    (h : (notifyStep now (some p) prev cfg).fired = true) :
    (notifyStep now (some p) prev cfg).cfg.baseline = some (some p) := by
  rcases notifyStep_cases now (some p) prev cfg with ⟨lp, hc⟩ | ⟨pr, hp, hc⟩ | ⟨pr, hp, hc, hd⟩
  · rw [hc] at h; simp at h
  · rw [hc] at h; simp at h
  · obtain rfl : p = pr := by injection hp
    rw [hc]

/-- With a stored baseline and the debounce window already elapsed,
`notify_loop` fires exactly when the absolute percentage change reaches
the threshold. -/
theorem notifyStep_fired_iff (now : ℤ) (prev : Option ℚ) (cfg : Cfg) (b p : ℚ)
    (hcb : cfg.baseline = some (some b)) (hbpos : 0 < b)
    (hdeb : cfg.last_notif_ts = 0 ∨ debounceWindowSecs ≤ now - cfg.last_notif_ts) :
    ((notifyStep now (some p) prev cfg).fired = true ↔ cfg.pct ≤ |(p - b) / b * 100|) := by
  have hdebb :
      (cfg.last_notif_ts == 0 || decide (debounceWindowSecs ≤ now - cfg.last_notif_ts)) = true := by
    rcases hdeb with h | h <;> simp [h]
  unfold notifyStep
  dsimp only
  rw [hcb]
  dsimp only
  rw [hdebb]
  split
  · rename_i hsf
    simp only [Bool.and_true, decide_eq_true_eq] at hsf
    simp [hsf]
  · rename_i hsf
    simp only [Bool.and_true, decide_eq_true_eq] at hsf
    simp [hsf]

/-- With threshold above zero, a tick of `notify_loop` at a price equal
to the stored baseline never fires. -/
theorem notifyStep_same_price_not_fired (now : ℤ) (prev : Option ℚ) (cfg : Cfg) (p : ℚ)
    (hcb : cfg.baseline = some (some p)) (hpct : 0 < cfg.pct) :
    (notifyStep now (some p) prev cfg).fired = false := by
  unfold notifyStep
  dsimp only
  rw [hcb]
  dsimp only
  have h0 : (p - p) / p * 100 = (0 : ℚ) := by rw [sub_self, zero_div, zero_mul]
  simp only [h0, abs_zero]
  split
  · rename_i hsf
    simp only [Bool.and_eq_true, decide_eq_true_eq] at hsf
    exact absurd hsf.1 hpct.not_le
  · rfl

/-- After a notification at epoch `last_notif_ts ≠ 0`, every further
notification time produced by a tick sequence of `notify_loop` keeps a
gap of at least the debounce window to its predecessor. -/
theorem runTicks_chain_from_app (ticks : List (ℤ × Option ℚ)) :
    ∀ (cfg : Cfg) (prev : Option ℚ), cfg.last_notif_ts ≠ 0 →
      (∀ tp ∈ ticks, 0 < tp.1) →
      List.Chain (fun a b => debounceWindowSecs ≤ b - a) cfg.last_notif_ts
        (runTicks cfg prev ticks).2.2 := by
  induction ticks with
  | nil =>
    intro cfg prev hl hpos
    exact List.Chain.nil
  | cons tp rest ih =>
    rintro cfg prev hl hpos
    obtain ⟨t, p⟩ := tp
    have hpt : 0 < t := hpos (t, p) (List.mem_cons_self _ _)
    have hprest : ∀ q ∈ rest, 0 < q.1 := fun q hq => hpos q (List.mem_cons_of_mem _ hq)
    cases hf : (notifyStep t p prev cfg).fired with
    | false =>
      have hlast := notifyStep_not_fired_last t p prev cfg hf
      have hch := ih (notifyStep t p prev cfg).cfg (notifyStep t p prev cfg).lastPrice
        (by rw [hlast]; exact hl) hprest
      rw [hlast] at hch
      simpa [runTicks, hf] using hch
    | true =>
      have hfi := notifyStep_fired t p prev cfg hf
      have hch := ih (notifyStep t p prev cfg).cfg (notifyStep t p prev cfg).lastPrice
        (by rw [hfi.2]; exact ne_of_gt hpt) hprest
      rw [hfi.2] at hch
      have hgap : debounceWindowSecs ≤ t - cfg.last_notif_ts := by
        rcases hfi.1 with h0 | hW
        · exact absurd h0 hl
        · exact hW
      simp only [runTicks, hf, if_true]
      exact List.Chain.cons hgap hch

/-- Any two consecutive notification times produced by a tick sequence
of `notify_loop` are at least the debounce window apart. -/
theorem runTicks_chain_app' (ticks : List (ℤ × Option ℚ)) :
    ∀ (cfg : Cfg) (prev : Option ℚ), (∀ tp ∈ ticks, 0 < tp.1) →
      List.Chain' (fun a b => debounceWindowSecs ≤ b - a) (runTicks cfg prev ticks).2.2 := by
  induction ticks with
  | nil =>
    intro cfg prev hpos
    simp [runTicks]
  | cons tp rest ih =>
    rintro cfg prev hpos
    obtain ⟨t, p⟩ := tp
    have hpt : 0 < t := hpos (t, p) (List.mem_cons_self _ _)
    have hprest : ∀ q ∈ rest, 0 < q.1 := fun q hq => hpos q (List.mem_cons_of_mem _ hq)
    cases hf : (notifyStep t p prev cfg).fired with
    | false =>
      have hch := ih (notifyStep t p prev cfg).cfg (notifyStep t p prev cfg).lastPrice hprest
      simpa [runTicks, hf] using hch
    | true =>
      have hfi := notifyStep_fired t p prev cfg hf
      have hch := runTicks_chain_from_app rest (notifyStep t p prev cfg).cfg
        (notifyStep t p prev cfg).lastPrice (by rw [hfi.2]; exact ne_of_gt hpt) hprest
      rw [hfi.2] at hch
      simp only [runTicks, hf, if_true]
      exact hch

/-- No two notification times produced by a tick sequence of
`notify_loop` (consecutive or not) are closer than the debounce
window. -/
theorem runTicks_pairwise_app (ticks : List (ℤ × Option ℚ)) (cfg : Cfg) (prev : Option ℚ)
    (hpos : ∀ tp ∈ ticks, 0 < tp.1) :
    List.Pairwise (fun a b => debounceWindowSecs ≤ b - a) (runTicks cfg prev ticks).2.2 := by
  haveI : IsTrans ℤ (fun a b => debounceWindowSecs ≤ b - a) :=
    ⟨fun a b c hab hbc => by
      have h1 : debounceWindowSecs ≤ b - a := hab
      have h2 : debounceWindowSecs ≤ c - b := hbc
      have hw : (0 : ℤ) ≤ debounceWindowSecs := by decide
      show debounceWindowSecs ≤ c - a
      linarith⟩
  exact List.chain'_iff_pairwise.mp (runTicks_chain_app' ticks cfg prev hpos)

/-- Watching then unwatching a symbol that was neither a favorite nor a
notifications key restores the whole user state. -/
theorem watch_unwatch_roundtrip (st : UserState) (sym : String)
    (hfav : st.favorites.contains sym = false)
    (hnot : assocHas st.notifications sym = false) :
    handleUnwatch (handleWatch st sym) sym = st := by
  have hmem : sym ∉ st.favorites := by simpa using hfav
  have hany : (st.notifications.any fun p => p.1 == sym) = false := hnot
  have hkeys : ∀ q ∈ st.notifications, ¬(q.1 == sym) = true := by
    intro q hq hqt
    have hcontr : (st.notifications.any fun p => p.1 == sym) = true :=
      List.any_eq_true.mpr ⟨q, hq, hqt⟩
    rw [hany] at hcontr
    exact Bool.false_ne_true hcontr
  unfold handleWatch
  rw [if_neg (by simp [hmem])]
  unfold handleUnwatch
  dsimp only
  rw [if_pos (by simp)]
  have h1 : (st.favorites ++ [sym]).erase sym = st.favorites := by
    rw [List.erase_append_right _ hmem]
    simp
  have h2 : assocPop (assocSet st.notifications sym watchCfgInit) sym = st.notifications := by
    unfold assocSet
    rw [if_neg (by rw [hany]; simp)]
    unfold assocPop
    rw [List.eraseP_append_right _ hkeys]
    simp
  simp [h1, h2]

end App

namespace SrvB

/-- `truncate_text` keeps any text within the limit unchanged and never
produces more than `limit` characters once the limit can hold the
truncation note. -/
theorem truncate_text_spec (text : List Char) (limit : Nat) (hl : 18 ≤ limit) :
    (truncate_text text limit).length ≤ limit ∧
      (text.length ≤ limit → truncate_text text limit = text) := by
  have hnote : troncatoNote.length = 18 := by decide
  constructor
  · unfold truncate_text
    split
    · rename_i h
      exact h
    · rw [List.length_append, List.length_take, hnote]
      omega
  · intro h
    unfold truncate_text
    rw [if_pos h]

end SrvB

/-! ## Claims -/

/-- C1: For every watch entry with stored baseline `b > 0` and threshold
`t`, and every fetched price `p` (debounce window already elapsed,
direction "both"), the alert loop fires exactly when
`|(p - b) / b * 100| >= t`.  Stated for `monitor_loop` (notifiche.py)
and for `notify_loop` (app.py). -/
theorem spec_C1_threshold_iff :
    (∀ (now : ℤ) (e : Notifiche.Entry) (b p : ℚ),
        e.baseline_price = some b → 0 < b → e.both = true →
        (e.last_notif_ts = 0 ∨ Notifiche.debounceWindowSecs e ≤ now - e.last_notif_ts) →
        ((Notifiche.monitorStep now (some p) e).fired = true ↔
          e.pct ≤ |(p - b) / b * 100|)) ∧
      (∀ (now : ℤ) (prev : Option ℚ) (cfg : App.Cfg) (b p : ℚ),
        cfg.baseline = some (some b) → 0 < b →
        (cfg.last_notif_ts = 0 ∨ App.debounceWindowSecs ≤ now - cfg.last_notif_ts) →
        ((App.notifyStep now (some p) prev cfg).fired = true ↔
          cfg.pct ≤ |(p - b) / b * 100|)) :=
  ⟨fun now e b p hb hpos hboth hdeb =>
      Notifiche.monitorStep_fired_iff now e b p hb hpos hboth hdeb,
    fun now prev cfg b p hb hpos hdeb =>
      App.notifyStep_fired_iff now prev cfg b p hb hpos hdeb⟩

/-- C1 witness: baseline 100, threshold 5%: price 106 fires, 103 does
not. -/
theorem spec_C1_threshold_iff_witness :
    (Notifiche.monitorStep 1000 (some 106) ⟨5, 15, true, "both", 0, some 100⟩).fired = true ∧
      (Notifiche.monitorStep 1000 (some 103) ⟨5, 15, true, "both", 0, some 100⟩).fired = false := by
  constructor
  · exact (spec_C1_threshold_iff.1 1000 ⟨5, 15, true, "both", 0, some 100⟩ 100 106
      rfl (by norm_num) rfl (Or.inl rfl)).mpr (by norm_num)
  · have h := spec_C1_threshold_iff.1 1000 ⟨5, 15, true, "both", 0, some 100⟩ 100 103
      rfl (by norm_num) rfl (Or.inl rfl)
    have hno : ¬((Notifiche.monitorStep 1000 (some 103)
        ⟨5, 15, true, "both", 0, some 100⟩).fired = true) := by
      intro hf
      have := h.mp hf
      norm_num at this
    simpa using hno

/-- C2: For a fresh watch entry with no baseline, the first tick on
which the provider returns a price stores that price as the baseline
and sends no notification.  Stated for `monitor_loop` (notifiche.py,
where `None`/`0.0` baselines count as missing) and for `notify_loop`
(app.py, where `/watch` stores `baseline = None`). -/
theorem spec_C2_cold_start :
    (∀ (now : ℤ) (p : ℚ) (e : Notifiche.Entry),
        pyFalsyQ e.baseline_price = true → e.last_notif_ts = 0 →
        (Notifiche.monitorStep now (some p) e).entry.baseline_price = some p ∧
          (Notifiche.monitorStep now (some p) e).fired = false) ∧
      (∀ (now : ℤ) (p : ℚ) (prev : Option ℚ) (cfg : App.Cfg),
        cfg.baseline = some none →
        (App.notifyStep now (some p) prev cfg).cfg.baseline = some (some p) ∧
          (App.notifyStep now (some p) prev cfg).fired = false) := by
  constructor
  · intro now p e hfal hlast
    unfold Notifiche.monitorStep
    rw [if_neg (fun hc => hc.1 hlast)]
    dsimp only
    rw [if_pos hfal]
    exact ⟨rfl, rfl⟩
  · intro now p prev cfg hcb
    unfold App.notifyStep
    dsimp only
    rw [hcb]
    exact ⟨rfl, rfl⟩

/-- C2 witness: a fresh entry at price 50 stores baseline 50 and does
not fire. -/
theorem spec_C2_cold_start_witness :
    (Notifiche.monitorStep 100 (some 50) ⟨5, 15, true, "both", 0, none⟩).entry.baseline_price =
        some 50 ∧
      (Notifiche.monitorStep 100 (some 50) ⟨5, 15, true, "both", 0, none⟩).fired = false :=
  spec_C2_cold_start.1 100 50 ⟨5, 15, true, "both", 0, none⟩ (by decide) rfl

/-- C3: After a notification fires, the stored baseline equals the
triggering price and `last_notif_ts` is stamped with the tick time, so
a subsequent poll at the same price computes a 0% change and does not
fire again (threshold positive).  Stated for `monitor_loop`
(notifiche.py) and for `notify_loop` (app.py). -/
theorem spec_C3_rebase :
    (∀ (now now2 : ℤ) (p : ℚ) (e : Notifiche.Entry),
        (Notifiche.monitorStep now (some p) e).fired = true → 0 < e.pct →
        (Notifiche.monitorStep now (some p) e).entry.baseline_price = some p ∧
          (Notifiche.monitorStep now (some p) e).entry.last_notif_ts = now ∧
          (Notifiche.monitorStep now2 (some p)
            (Notifiche.monitorStep now (some p) e).entry).fired = false) ∧
      (∀ (now now2 : ℤ) (p : ℚ) (prev prev2 : Option ℚ) (cfg : App.Cfg),
        (App.notifyStep now (some p) prev cfg).fired = true → 0 < cfg.pct →
        (App.notifyStep now (some p) prev cfg).cfg.baseline = some (some p) ∧
          (App.notifyStep now (some p) prev cfg).cfg.last_notif_ts = now ∧
          (App.notifyStep now2 (some p) prev2
            (App.notifyStep now (some p) prev cfg).cfg).fired = false) := by
  constructor
  · intro now now2 p e hf hpct
    have hbase := Notifiche.monitorStep_fired_baseline now p e hf
    have hlast := (Notifiche.monitorStep_fired now (some p) e hf).2
    refine ⟨hbase, hlast, ?_⟩
    apply Notifiche.monitorStep_same_price_not_fired now2 p _ hbase
    rw [Notifiche.monitorStep_pct]
    exact hpct
  · intro now now2 p prev prev2 cfg hf hpct
    have hbase := App.notifyStep_fired_baseline now p prev cfg hf
    have hlast := (App.notifyStep_fired now (some p) prev cfg hf).2
    refine ⟨hbase, hlast, ?_⟩
    apply App.notifyStep_same_price_not_fired now2 prev2 _ p hbase
    rw [App.notifyStep_pct]
    exact hpct

/-- C3 witness: after firing at price 106 (baseline 100, threshold 5%),
the baseline is 106, the timestamp is stamped, and a second poll at 106
does not fire. -/
theorem spec_C3_rebase_witness :
    (Notifiche.monitorStep 1000 (some 106) ⟨5, 15, true, "both", 0, some 100⟩).entry.baseline_price =
        some 106 ∧
      (Notifiche.monitorStep 1000 (some 106)
          ⟨5, 15, true, "both", 0, some 100⟩).entry.last_notif_ts = 1000 ∧
      (Notifiche.monitorStep 2000 (some 106)
        (Notifiche.monitorStep 1000 (some 106)
          ⟨5, 15, true, "both", 0, some 100⟩).entry).fired = false :=
  spec_C3_rebase.1 1000 2000 106 ⟨5, 15, true, "both", 0, some 100⟩
    ((Notifiche.monitorStep_fired_iff 1000 ⟨5, 15, true, "both", 0, some 100⟩ 100 106
        rfl (by norm_num) rfl (Or.inl rfl)).mpr (by norm_num))
    (by norm_num)

/-- C4: For every `(chat, symbol)` pair, the alert loop never sends two
notifications within one debounce window: over any tick sequence with
positive epoch times, the emitted notification times are pairwise at
least the debounce window apart.  Stated for `monitor_loop`
(notifiche.py, per-entry window) and `notify_loop` (app.py, global
window). -/
theorem spec_C4_debounce :
    (∀ (e : Notifiche.Entry) (ticks : List (ℤ × Option ℚ)),
        (∀ tp ∈ ticks, 0 < tp.1) → 0 ≤ e.interval_min →
        List.Pairwise (fun a b => Notifiche.debounceWindowSecs e ≤ b - a)
          (Notifiche.runTicks e ticks).2) ∧
      (∀ (cfg : App.Cfg) (prev : Option ℚ) (ticks : List (ℤ × Option ℚ)),
        (∀ tp ∈ ticks, 0 < tp.1) →
        List.Pairwise (fun a b => App.debounceWindowSecs ≤ b - a)
          (App.runTicks cfg prev ticks).2.2) :=
  ⟨fun e ticks hpos hint => Notifiche.runTicks_pairwise ticks e hpos hint,
    fun cfg prev ticks hpos => App.runTicks_pairwise_app ticks cfg prev hpos⟩

/-- C4 witness: a run that fires at epoch 100, is debounced at 200, and
fires again at 1100 keeps its notification times ≥ 900 s apart. -/
theorem spec_C4_debounce_witness :
    List.Pairwise
        (fun a b => Notifiche.debounceWindowSecs ⟨5, 15, true, "both", 0, some 100⟩ ≤ b - a)
        (Notifiche.runTicks ⟨5, 15, true, "both", 0, some 100⟩
          [(100, some 110), (200, some 130), (1100, some 150)]).2 :=
  spec_C4_debounce.1 ⟨5, 15, true, "both", 0, some 100⟩
    [(100, some 110), (200, some 130), (1100, some 150)] (by decide) (by decide)

/-- C5 counterexample: in notifiche.py the debounce window of an entry
with the default `interval_min = 15` is 900 s, which is not the loop's
polling interval `LOOP_SLEEP = 20` s. -/
theorem spec_C5_window_cex :
    Notifiche.debounceWindowSecs ⟨5, 15, true, "both", 0, some 100⟩ ≠ Notifiche.LOOP_SLEEP := by
  decide

/-- C5 amended: in app.py's `notify_loop` the debounce window equals the
seconds slept between passes (`CHECK_INTERVAL_MIN` minutes both); in
notifiche.py's `monitor_loop` the debounce window is the per-entry
`interval_min` minutes while the loop sleeps `LOOP_SLEEP = 20` s. -/
theorem spec_C5_window_amended :
    App.debounceWindowSecs = App.loopSleepSecs ∧
      Notifiche.LOOP_SLEEP = 20 ∧
      (∀ e : Notifiche.Entry, Notifiche.debounceWindowSecs e = e.interval_min * 60) :=
  ⟨rfl, rfl, fun _ => rfl⟩

/-- C6 counterexample: in Server.py's `alert_worker` a fetch that raises
for the first alert aborts the pass, so the second alert — which would
evaluate fine on its own — is not evaluated on that tick. -/
theorem spec_C6_batch_cex :
    SrvA.alertBatch
        (fun s => if s = "AAA" then Except.error () else Except.ok (some 5))
        [⟨"AAA", 1, "above", "c"⟩, ⟨"BBB", 1, "above", "c"⟩] = ([], true) ∧
      SrvA.alertBatch
        (fun s => if s = "AAA" then Except.error () else Except.ok (some 5))
        [⟨"BBB", 1, "above", "c"⟩] = ([(⟨"BBB", 1, "above", "c"⟩, true)], false) := by
  constructor <;> rfl

/-- C6 amended: in notifiche.py's `monitor_loop` each batch entry's
outcome depends only on its own fetch result and a failed fetch
(`None`) only skips that one symbol; likewise a `None` fetch in app.py's
`notify_loop` only skips that symbol; but in Server.py's `alert_worker`
a fetch that raises aborts the remaining alerts of that pass (they are
retried on the next tick). -/
theorem spec_C6_batch_amended :
    (∀ (now : ℤ) (fetch : String → Option ℚ) (l : List (String × Notifiche.Entry)),
        Notifiche.processBatch now fetch l =
          l.map fun q => (q.1, Notifiche.monitorStep now (fetch q.1) q.2)) ∧
      (∀ (now : ℤ) (e : Notifiche.Entry),
        Notifiche.monitorStep now none e = ⟨e, false⟩) ∧
      (∀ (now : ℤ) (prev : Option ℚ) (cfg : App.Cfg),
        App.notifyStep now none prev cfg = ⟨cfg, false, prev⟩) ∧
      (∀ (a : SrvA.Alert) (rest : List SrvA.Alert),
        SrvA.alertBatch (fun _ => Except.error ()) (a :: rest) = ([], true)) :=
  ⟨Notifiche.processBatch_map, Notifiche.monitorStep_none,
    App.notifyStep_none, fun _ _ => rfl⟩

/-- C7 counterexample: the price-fetch adapter `get_price_sync` of
Server.py has no exception handler — on a raising `t.info` it
propagates the exception to its caller instead of returning a
fallback. -/
theorem spec_C7_adapter_cex :
    SrvA.get_price_sync (Except.error ()) = Except.error () := rfl

/-- C7 amended: the adapters of notifiche.py (`get_price`,
`telegram_send_message`, `build_small_chart`) and app.py
(`telegram_call`) wrap their external call and return a fallback on
every input; Server.py's `get_price_sync` instead propagates
exceptions, which are then caught by `alert_worker`'s own broad
handler (aborting that pass). -/
theorem spec_C7_adapters_amended :
    (∀ h, ∃ v, Notifiche.get_price h = Except.ok v) ∧
      (∀ r, ∃ v, Notifiche.telegram_send_message r = Except.ok v) ∧
      (∀ r, ∃ v, Notifiche.build_small_chart r = Except.ok v) ∧
      (∀ r, ∃ v, App.telegram_call r = Except.ok v) ∧
      (∀ e : Unit, SrvA.get_price_sync (Except.error e) = Except.error e) ∧
      (∀ (a : SrvA.Alert) (rest : List SrvA.Alert),
        SrvA.alertBatch (fun _ => Except.error ()) (a :: rest) = ([], true)) := by
  refine ⟨?_, ?_, ?_, ?_, fun e => rfl, fun a rest => rfl⟩
  · intro h
    cases h with
    | error e => exact ⟨none, rfl⟩
    | ok v =>
      cases v with
      | none => exact ⟨none, rfl⟩
      | some c => exact ⟨some c, rfl⟩
  · intro r
    cases r with
    | error e => exact ⟨none, rfl⟩
    | ok v => exact ⟨some v, rfl⟩
  · intro r
    cases r with
    | error e => exact ⟨none, rfl⟩
    | ok v => exact ⟨some v, rfl⟩
  · intro r
    cases r with
    | error e => exact ⟨none, rfl⟩
    | ok v => exact ⟨some v, rfl⟩

/-- C8 counterexample: a message handled in chat mode does not clear
`mode` — it stays `"chat"`. -/
theorem spec_C8_mode_cex :
    (App.handleModeMessage ⟨[], [], some App.Mode.chat, []⟩ "ciao" none).mode ≠ none := by
  intro h
  exact Option.noConfusion h

/-- C8 amended: handling one message clears `mode` for the one-shot
search and analysis-prompt modes, but chat mode persists until changed
by a menu command. -/
theorem spec_C8_mode_amended :
    ∀ (st : App.UserState) (text : String) (aiReply : Option String),
      (App.handleModeMessage st text aiReply).mode = App.modeAfter st.mode := by
  intro st text ai
  obtain ⟨f, n, m, c⟩ := st
  unfold App.handleModeMessage App.modeAfter
  rcases m with _ | m
  · rfl
  · cases m <;> rfl

/-- C9: For a user state where symbol S is neither a favorite nor a
notifications key, `/watch S` followed by `/unwatch S` restores the
favorites list and the notifications map. -/
theorem spec_C9_roundtrip :
    ∀ (st : App.UserState) (sym : String),
      st.favorites.contains sym = false → App.assocHas st.notifications sym = false →
      (App.handleUnwatch (App.handleWatch st sym) sym).favorites = st.favorites ∧
        (App.handleUnwatch (App.handleWatch st sym) sym).notifications = st.notifications := by
  intro st sym h1 h2
  rw [App.watch_unwatch_roundtrip st sym h1 h2]
  exact ⟨rfl, rfl⟩

/-- C9 witness: watching then unwatching TSLA restores a state that
held only AAPL. -/
theorem spec_C9_roundtrip_witness :
    (App.handleUnwatch
        (App.handleWatch ⟨["AAPL"], [("AAPL", App.watchCfgInit)], none, []⟩ "TSLA")
        "TSLA").favorites = ["AAPL"] ∧
      (App.handleUnwatch
        (App.handleWatch ⟨["AAPL"], [("AAPL", App.watchCfgInit)], none, []⟩ "TSLA")
        "TSLA").notifications = [("AAPL", App.watchCfgInit)] :=
  spec_C9_roundtrip ⟨["AAPL"], [("AAPL", App.watchCfgInit)], none, []⟩ "TSLA"
    (by decide) (by decide)

/-- C10: `truncate_text` returns at most `limit` characters whenever
the limit can hold the 18-character truncation note, and returns the
text unchanged when it is within the limit; as used, replies are capped
at `TELEGRAM_MAX_MESSAGE = 4096`. -/
theorem spec_C10_truncate :
    (∀ (text : List Char) (limit : Nat), 18 ≤ limit →
        (SrvB.truncate_text text limit).length ≤ limit ∧
          (text.length ≤ limit → SrvB.truncate_text text limit = text)) ∧
      SrvB.troncatoNote.length = 18 ∧ SrvB.TELEGRAM_MAX_MESSAGE = 4096 :=
  ⟨SrvB.truncate_text_spec, by decide, rfl⟩

/-- C10 witness: a short text is returned unchanged within limit 20 and
the bound holds there. -/
theorem spec_C10_truncate_witness :
    (SrvB.truncate_text "abc".data 20).length ≤ 20 ∧
      SrvB.truncate_text "abc".data 20 = "abc".data :=
  ⟨(spec_C10_truncate.1 "abc".data 20 (by norm_num)).1,
    (spec_C10_truncate.1 "abc".data 20 (by norm_num)).2 (by decide)⟩

end AngelBot
